import Mathlib

/-!
Verification of the Ai-Travel-Guide backend core against its specification.

The development shallowly embeds, in Lean 4, the three components that the
specification covers:

* the suggestion normalizer (`normalize_suggestion_data` in
  `backend/app/routes/suggestions.py`),
* the suggestion listing / generation / backfill pipeline
  (`get_suggestions` in `backend/app/routes/suggestions.py` and
  `generate_suggestions` in `backend/app/services/ai_service.py`),
* the weather cache and forecast aggregation
  (`WeatherService` in `backend/app/services/weather_service.py`).

Python dictionaries of heterogeneous JSON-ish values are embedded as an
inductive `Value` type together with partial maps; machine floats are
embedded as rationals with Python's banker's rounding made explicit;
Python exceptions are embedded as `Except`; external collaborators
(document store, LLM, weather HTTP client, the JSON parser, Python's
set-iteration order and local-time calendar) are parameters of the
embedded functions.
-/

/- ===================== String helpers (Python semantics) ===================== -/

/-- Python's whitespace set for `str.strip()`: space, tab, newline, carriage
return, vertical tab, form feed (ASCII fragment; unicode spaces not modelled). -/
def pyIsSpace (c : Char) : Bool :=
  c == ' ' || c == '\t' || c == '\n' || c == '\r' || c == '\x0b' || c == '\x0c'

/-- Python `str.strip()`: drop leading and trailing whitespace. -/
def pyStrip (s : String) : String :=
  let l1 := s.toList.dropWhile pyIsSpace
  String.mk ((l1.reverse.dropWhile pyIsSpace).reverse)

/-- Python `str.capitalize()`: first character uppercased, the rest lowercased
(ASCII behaviour). -/
def pyCapitalize (s : String) : String :=
  match s.toList with
  | [] => ""
  | c :: cs => String.mk (c.toUpper :: cs.map Char.toLower)

/-- Auxiliary for `pySplitComma`: split a character list at each comma,
`acc` holding the (reversed) characters of the piece being built. -/
def pySplitCommaAux : List Char → List Char → List String
  | [], acc => [String.mk acc.reverse]
  | c :: cs, acc =>
      if c = ',' then String.mk acc.reverse :: pySplitCommaAux cs []
      else pySplitCommaAux cs (c :: acc)

/-- Python `s.split(',')`: split at every comma, keeping empty pieces
(`"".split(',') == [""]`, `",".split(',') == ["", ""]`). -/
def pySplitComma (s : String) : List String :=
  pySplitCommaAux s.toList []

/-- Python `',' in s`. -/
def pyContainsComma (s : String) : Bool :=
  s.toList.contains ','

/-- Python truthiness of a string: non-empty. -/
def pyTruthy (s : String) : Bool :=
  !s.toList.isEmpty

/- ===================== JSON-ish values and suggestion records ===================== -/

/-- A loosely-typed value as found in a suggestion dictionary: the cases the
normalizer distinguishes are strings, lists, and "anything else" (numbers,
booleans, null). -/
inductive Value where
  | str (s : String)
  | list (l : List Value)
  | num (q : ℚ)
  | bool (b : Bool)
  | null

/-- Whether a value is a Python `list`. -/
def Value.isList : Value → Bool
  | .list _ => true
  | _ => false

/-- Whether a value is a Python `str`. -/
def Value.isStr : Value → Bool
  | .str _ => true
  | _ => false

/-- A loosely-typed suggestion record: a partial map from field names to values. -/
abbrev SuggestionData : Type := String → Option Value

/-- The five fields `normalize_suggestion_data` coerces to arrays
(`array_fields` in `backend/app/routes/suggestions.py`). -/
def arrayFields : List String :=
  ["category", "highlights", "best_months", "popular_activities", "travel_tips"]

/-- Per-field behaviour of `normalize_suggestion_data`
(`backend/app/routes/suggestions.py`, lines 28-48): a present string with a
comma is comma-split, each piece stripped, empty pieces dropped; a present
string without a comma becomes a one-element list of the stripped string
(empty list if it strips to empty); a present list is left unchanged; any
other present value becomes the empty list; an absent field becomes the
empty list. -/
def normalizeField : Option Value → Value
  | none => .list []
  | some v =>
    match v with
    | .str s =>
        if pyContainsComma s then
          .list ((((pySplitComma s).map pyStrip).filter (fun p => pyTruthy p)).map Value.str)
        else
          if pyTruthy (pyStrip s) then .list [.str (pyStrip s)] else .list []
    | .list l => .list l
    | _ => .list []

/-- `normalize_suggestion_data` (`backend/app/routes/suggestions.py`, lines
20-50): rewrite each of the five array fields through `normalizeField`; all
other fields are untouched. -/
def normalize_suggestion_data (r : SuggestionData) : SuggestionData :=
  fun k => if k ∈ arrayFields then some (normalizeField (r k)) else r k

/-- A concrete loosely-typed record used to witness the field-shape theorem:
only the `category` field is present, as a comma-joined string. -/
def c1Record : SuggestionData :=
  fun k => if k = "category" then some (.str "beach, culture") else none

/- ===================== Suggestion listing / generation / backfill pipeline ===================== -/

/-- Python `str.lower()` (ASCII behaviour). -/
def pyLower (s : String) : String :=
  String.mk (s.toList.map Char.toLower)

/-- Truthiness of an optional string parameter: `None` and `""` are falsy. -/
def truthyOpt : Option String → Bool
  | none => false
  | some s => pyTruthy s

/-- A stored suggestion document, restricted to the fields the listing
pipeline reads or writes (`get_suggestions` in
`backend/app/routes/suggestions.py`); the remaining descriptive fields do
not influence the pipeline's control flow. Timestamps are seconds;
`created_at`/`updated_at` are `none` until the route stamps them. -/
structure SRecord where
  destination : String
  category : List String
  budget : String
  continent : String
  duration_days : Int
  rating : ℚ
  is_featured : Bool
  created_at : Option Nat
  updated_at : Option Nat
deriving DecidableEq, Repr

/-- Caller-supplied parameters of the listing route (the `suggestion_id`
query parameter is `None`: the direct-identifier branch returns before any
of the logic modelled here). FastAPI enforces `1 ≤ limit ≤ 50` and
`0 ≤ skip`. -/
structure ListParams where
  category : Option String
  budget : Option String
  continent : Option String
  duration_min : Option Int
  duration_max : Option Int
  featured : Bool
  limit : Nat
  skip : Nat
deriving DecidableEq, Repr

/-- The MongoDB filter document built by the route: a conjunction of the
supplied filters (`query` in `get_suggestions`, lines 111-138). A field is
`none` when the corresponding filter was not supplied (or was falsy). -/
structure SQuery where
  featured : Bool
  category : Option String
  budget : Option String
  continent : Option String
  duration_min : Option Int
  duration_max : Option Int
deriving DecidableEq, Repr

/-- Build the filter document from the parameters, mirroring lines 111-138:
`featured` adds `is_featured = True`; `category` (lowercased) must be a
member of the record's category array; `budget` (lowercased) and
`continent` are exact matches; the duration bounds become a `$gte`/`$lte`
range on `duration_days`. Falsy strings add no constraint. -/
def buildQuery (p : ListParams) : SQuery :=
  { featured := p.featured
  , category := if truthyOpt p.category then p.category.map pyLower else none
  , budget := if truthyOpt p.budget then p.budget.map pyLower else none
  , continent := if truthyOpt p.continent then p.continent else none
  , duration_min := p.duration_min
  , duration_max := p.duration_max }

/-- `has_filters` (lines 113-138): whether any filter was supplied. -/
def hasFilters (p : ListParams) : Bool :=
  p.featured || truthyOpt p.category || truthyOpt p.budget || truthyOpt p.continent
    || p.duration_min.isSome || p.duration_max.isSome

/-- Whether a stored record matches the filter document. -/
def matchesQuery (q : SQuery) (r : SRecord) : Bool :=
  (!q.featured || r.is_featured) &&
  (match q.category with | none => true | some c => r.category.contains c) &&
  (match q.budget with | none => true | some b => r.budget == b) &&
  (match q.continent with | none => true | some c => r.continent == c) &&
  (match q.duration_min with | none => true | some m => decide (m ≤ r.duration_days)) &&
  (match q.duration_max with | none => true | some m => decide (r.duration_days ≤ m))

/-- Insert a record into a rating-descending list, after every record of
rating ≥ its own (stable descending insertion). -/
def insertByRating (x : SRecord) : List SRecord → List SRecord
  | [] => [x]
  | y :: ys => if x.rating > y.rating then x :: y :: ys else y :: insertByRating x ys

/-- `sort("rating", -1)`: stable sort by rating descending (a deterministic
model of the store's sort). -/
def sortByRatingDesc (l : List SRecord) : List SRecord :=
  l.foldl (fun acc x => insertByRating x acc) []

/-- `find(query).sort("rating", -1).skip(skip).limit(lim)`. -/
def runQuery (db : List SRecord) (q : SQuery) (skip lim : Nat) : List SRecord :=
  ((sortByRatingDesc (db.filter (matchesQuery q))).drop skip).take lim

/-- `count_documents(query)`: matches counted independently of any page window. -/
def countDocs (db : List SRecord) (q : SQuery) : Nat :=
  (db.filter (matchesQuery q)).length

/-- Arguments of a call to `ai_service.generate_suggestions`. -/
structure GenRequest where
  category : Option String
  budget : Option String
  continent : Option String
  count : Nat
deriving DecidableEq, Repr

/-- Error raised by the generation pipeline. -/
inductive GenError where
  | invalidAIResponse (msg : String)
deriving DecidableEq, Repr

/-- The generation collaborator as the route sees it: a call either returns
a list of records or raises (`Except.error`). -/
abbrev GenCollab : Type := GenRequest → Except GenError (List SRecord)

/-- Cold-start stamping (lines 149-152): `enumerate` the generated batch;
record `i` gets `is_featured := i < 6` and both timestamps set to now. -/
def stampColdStart (now : Nat) (i : Nat) : List SRecord → List SRecord
  | [] => []
  | s :: rest =>
      { s with created_at := some now, updated_at := some now,
               is_featured := decide (i < 6) } :: stampColdStart now (i + 1) rest

/-- Backfill stamping (lines 176-179): every generated record gets
`is_featured := False` and both timestamps set to now. -/
def stampBackfill (now : Nat) (l : List SRecord) : List SRecord :=
  l.map (fun s => { s with created_at := some now, updated_at := some now, is_featured := false })

/-- The listing response: total count, page of records, echoed filters. -/
structure SResponse where
  total : Nat
  suggestions : List SRecord
  filters : SQuery
deriving DecidableEq, Repr

/-- `effective_limit` (line 140). -/
def effectiveLimit (p : ListParams) : Nat :=
  if hasFilters p then min p.limit 10 else p.limit

/-- Cold-start step (lines 143-158): when the collection holds zero
documents, ask the collaborator for 12 records, stamp them, persist them;
the surrounding `try/except` swallows any generation error, and an empty
batch is not inserted. -/
def coldStartStep (gen : GenCollab) (now : Nat) (db : List SRecord) : List SRecord :=
  if db.length = 0 then
    match gen ⟨none, none, none, 12⟩ with
    | .ok gs => if gs.isEmpty then db else db ++ stampColdStart now 0 gs
    | .error _ => db
  else db

/-- The listing operation `get_suggestions`
(`backend/app/routes/suggestions.py`, lines 53-206), on the
`suggestion_id = None` path, with the document store embedded as a list of
records and the generation collaborator as a parameter. Returns the
response together with the final collection contents. After the cold-start
step, the filtered query runs with skip and `effective_limit`, and the
total is counted independently; if the total is zero and a filter was
supplied, the collaborator is asked for `min(effective_limit, 6)` records
with the same category/budget/continent hints, a non-empty batch is
stamped not-featured and persisted, and the query is re-issued with the
same filter, sort and limit but no skip, the response total becoming the
length of the re-issued page. The `try/except` around generation swallows
collaborator errors. (Normalization of the returned page via
`normalize_suggestion_data` only reshapes the five array fields of each
document and is modelled separately.) -/
def get_suggestions (gen : GenCollab) (now : Nat) (db : List SRecord) (p : ListParams) :
    SResponse × List SRecord :=
  let q := buildQuery p
  let db1 := coldStartStep gen now db
  let suggestions1 := runQuery db1 q p.skip (effectiveLimit p)
  let total1 := countDocs db1 q
  if total1 = 0 ∧ hasFilters p = true then
    match gen ⟨p.category, p.budget, p.continent, min (effectiveLimit p) 6⟩ with
    | .ok gs =>
        if gs.isEmpty then (⟨total1, suggestions1, q⟩, db1)
        else
          let db2 := db1 ++ stampBackfill now gs
          let page2 := runQuery db2 q 0 (effectiveLimit p)
          (⟨page2.length, page2, q⟩, db2)
    | .error _ => (⟨total1, suggestions1, q⟩, db1)
  else (⟨total1, suggestions1, q⟩, db1)

/- ===================== AI service: parse and error surface ===================== -/

/-- Whether a character is a backtick (codepoint 96). -/
def isBacktickChar (c : Char) : Bool :=
  c.toNat == 96

/-- Whether a character list starts with a three-backtick fence. -/
def startsWithFence : List Char → Bool
  | c1 :: c2 :: c3 :: _ => isBacktickChar c1 && isBacktickChar c2 && isBacktickChar c3
  | _ => false

/-- Whether a character list starts with the four characters of a json tag. -/
def startsWithJsonTag : List Char → Bool
  | 'j' :: 's' :: 'o' :: 'n' :: _ => true
  | _ => false

/-- Python `content.split` on a three-backtick separator, `acc` holding the
(reversed) characters of the piece being built. -/
def splitFenceAux : List Char → List Char → List String
  | [], acc => [String.mk acc.reverse]
  | c1 :: c2 :: c3 :: rest, acc =>
      if isBacktickChar c1 && isBacktickChar c2 && isBacktickChar c3 then
        String.mk acc.reverse :: splitFenceAux rest []
      else splitFenceAux (c2 :: c3 :: rest) (c1 :: acc)
  | c :: cs, acc => splitFenceAux cs (c :: acc)

/-- Fenced-code-block stripping in `generate_suggestions`
(`backend/app/services/ai_service.py`, lines 268-275): strip the raw text;
if it starts with a fence, take the piece after the first fence, drop a
leading language tag, and strip again. -/
def stripCodeFence (raw : String) : String :=
  let content := pyStrip raw
  if startsWithFence content.toList then
    let piece := ((splitFenceAux content.toList []).get? 1).getD ""
    let piece2 := if startsWithJsonTag piece.toList then String.mk (piece.toList.drop 4) else piece
    pyStrip piece2
  else content

namespace AIService

/-- `ai_service.generate_suggestions`
(`backend/app/services/ai_service.py`, lines 194-305), parsing stage: the
LLM's raw response text is fence-stripped and handed to the JSON decoder
(the `parse` collaborator, which also covers the per-record default
backfill of lines 280-294: `rating` 4.7, `duration_days` from the leading
integer of the duration text). A decode failure (`parse` returning the
decoder's message) is re-raised as a distinct invalid-response error whose
message wraps the decoder's message; the raw text itself goes to the log,
not into the error. A successful parse returns the records. -/
def generate_suggestions (parse : String → Except String (List SRecord)) (raw : String) :
    Except GenError (List SRecord) :=
  match parse (stripCodeFence raw) with
  | .error msg => .error (.invalidAIResponse ("AI returned invalid JSON: " ++ msg))
  | .ok suggs => .ok suggs

end AIService

/- ===================== Concrete inputs for counterexamples and witnesses ===================== -/

/-- A stored record in the city category. -/
def recCity : SRecord :=
  ⟨"Rome", ["city"], "moderate", "Europe", 5, 4, false, none, none⟩

/-- A generated record in the mountains category. -/
def recMountain : SRecord :=
  ⟨"Alps", ["mountains"], "moderate", "Europe", 7, 4, false, none, none⟩

/-- A generated record in the beach category, rating 5. -/
def recBeach1 : SRecord :=
  ⟨"Bali", ["beach"], "budget", "Asia", 6, 5, false, none, none⟩

/-- A generated record in the beach category, rating 3. -/
def recBeach2 : SRecord :=
  ⟨"Goa", ["beach"], "budget", "Asia", 5, 3, false, none, none⟩

/-- Listing parameters for the backfill scenario: category filter `beach`,
limit 1, skip 1. -/
def c3Params : ListParams :=
  ⟨some "beach", none, none, none, none, false, 1, 1⟩

/-- A collaborator that over-delivers: asked for 1 record, it returns 2
matching beach records (LLM output count is not guaranteed). -/
def c3Gen : GenCollab := fun req =>
  if req.count = 1 then .ok [recBeach1, recBeach2] else .ok []

/-- Listing parameters for the cold-start scenario: category filter
`beach`, default limit 10, skip 0. -/
def c4Params : ListParams :=
  ⟨some "beach", none, none, none, none, false, 10, 0⟩

/-- A collaborator answering the cold-start batch request with 12 mountain
records (which do not match the beach filter) and every other request with
an empty batch. -/
def c4Gen : GenCollab := fun req =>
  if req.count = 12 then .ok (List.replicate 12 recMountain) else .ok []

/-- Listing parameters with no filters, limit 10, skip 0. -/
def c4wParams : ListParams :=
  ⟨none, none, none, none, none, false, 10, 0⟩

/-- A collaborator returning 12 mountain records for the cold-start batch
request and an empty batch otherwise. -/
def c4wGen : GenCollab := fun req =>
  if req.count = 12 then .ok (List.replicate 12 recMountain) else .ok []

/-- A JSON decoder collaborator that fails on every input with the CPython
decoder's message for non-JSON text. -/
def c6Parse : String → Except String (List SRecord) := fun _ => .error "Expecting value"

/-- The generation collaborator induced by an LLM answering `not json` and
the always-failing decoder. -/
def c6Gen : GenCollab := fun _ => AIService.generate_suggestions c6Parse "not json"

/- ===================== Weather service: rounding and aggregation ===================== -/

/-- Python `round(x)` on an exact value: round half to even (banker's
rounding). Machine-float representation error is not modelled; all weather
quantities are embedded as exact rationals. -/
def roundHalfEven (q : ℚ) : ℤ :=
  let f := ⌊q⌋
  let r := q - (f : ℚ)
  if r < 1/2 then f
  else if (1 : ℚ)/2 < r then f + 1
  else if f % 2 = 0 then f else f + 1

/-- Python `round(x, 1)`: round to one decimal, half to even. -/
def round1 (q : ℚ) : ℚ :=
  (roundHalfEven (q * 10) : ℚ) / 10

/-- Python `min` over a list (0 for the empty list, which the source never
passes). -/
def listMin : List ℚ → ℚ
  | [] => 0
  | x :: xs => xs.foldl min x

/-- Python `max` over a list (0 for the empty list, which the source never
passes). -/
def listMax : List ℚ → ℚ
  | [] => 0
  | x :: xs => xs.foldl max x

/-- Python `sum` over a list. -/
def listSum (l : List ℚ) : ℚ :=
  l.foldl (· + ·) 0

/-- Python `max(iterable, key=key)`: the first element of the iteration
with maximal key (later elements replace the current best only on a
strictly greater key). -/
def pyMaxBy (key : String → Nat) : List String → Option String
  | [] => none
  | x :: xs => some (xs.foldl (fun best a => if key best < key a then a else best) x)

/-- `order` is a possible iteration order of Python's `set(l)`: an
enumeration of the distinct elements of `l` in an order the language does
not specify (string hashing is salted per process). -/
def isSetEnum (order l : List String) : Prop :=
  order.Nodup ∧ (∀ s ∈ order, s ∈ l) ∧ (∀ s ∈ l, s ∈ order)

/-- One 3-hour forecast reading as consumed by the aggregation:
`dt` (unix timestamp), `main.temp`, `weather[0].description`,
`weather[0].icon`, `main.humidity`, `wind.speed`, `pop`. -/
structure Reading where
  dt : Nat
  temp : ℚ
  description : String
  icon : String
  humidity : ℚ
  wind_speed : ℚ
  pop : ℚ
deriving DecidableEq, Repr

/-- A daily forecast summary. `date_dt` holds the first reading's raw
timestamp; the source renders it through local-time `strftime`, which is
not modelled. -/
structure DayAgg where
  date_dt : Nat
  temp_min : ℚ
  temp_max : ℚ
  temp_avg : ℚ
  description : String
  icon : String
  humidity : ℤ
  wind_speed : ℚ
  pop : ℤ
deriving DecidableEq, Repr

/-- `_aggregate_day_forecast` (`backend/app/services/weather_service.py`,
lines 204-226): min/max/avg temperature rounded to 1 decimal, the
description chosen by `max(set(descriptions), key=descriptions.count)` —
the iteration order of the set is the `setOrder` parameter — then
capitalized, the icon of the reading at index `len // 2`, mean humidity
rounded to integer, mean wind speed rounded to 1 decimal, and max
precipitation probability times 100 rounded to integer. The source
returns an empty dict for an empty run (which never occurs); modelled as
`none`. -/
def aggregate_day_forecast (setOrder : List String) : List Reading → Option DayAgg
  | [] => none
  | first :: rest =>
      let day_data := first :: rest
      let temps := day_data.map (fun r => r.temp)
      let descriptions := day_data.map (fun r => r.description)
      let n : ℚ := (day_data.length : ℚ)
      some
        { date_dt := first.dt
        , temp_min := round1 (listMin temps)
        , temp_max := round1 (listMax temps)
        , temp_avg := round1 (listSum temps / n)
        , description := pyCapitalize ((pyMaxBy (fun d => descriptions.count d) setOrder).getD "")
        , icon := ((day_data.get? (day_data.length / 2)).getD first).icon
        , humidity := roundHalfEven (listSum (day_data.map (fun r => r.humidity)) / n)
        , wind_speed := round1 (listSum (day_data.map (fun r => r.wind_speed)) / n)
        , pop := roundHalfEven (listMax (day_data.map (fun r => r.pop)) * 100) }

/-- Group readings into maximal consecutive runs with equal calendar date,
as the loop at lines 154-172 does (`dateOf` models
`datetime.fromtimestamp(dt).date()`, a local-time calendar function left
abstract). -/
def groupRuns (dateOf : Nat → Nat) : List Reading → List (List Reading)
  | [] => []
  | x :: xs =>
      (x :: xs.takeWhile (fun r => dateOf r.dt == dateOf x.dt)) ::
        groupRuns dateOf (xs.dropWhile (fun r => dateOf r.dt == dateOf x.dt))
termination_by l => l.length
decreasing_by
  simp only [List.length_cons]
  exact Nat.lt_succ_of_le (List.dropWhile_sublist _).length_le

/- ===================== Weather service: cache and lookups ===================== -/

/-- Outcome of an upstream weather HTTP call: success, an HTTP status
error (404 not-found, 401 unauthorized, or any other status), a timeout,
or any other exception. -/
inductive UpstreamResult (α : Type) where
  | success (data : α)
  | httpError (status : Nat)
  | timeout
  | otherError (msg : String)
deriving DecidableEq, Repr

/-- Whether an upstream outcome is a failure (anything but success). -/
def UpstreamResult.isFailure {α : Type} : UpstreamResult α → Bool
  | .success _ => false
  | _ => true

/-- The fields of the current-conditions upstream payload the service
reads. -/
structure CurrentRaw where
  name : String
  country : String
  temp : ℚ
  feels_like : ℚ
  temp_min : ℚ
  temp_max : ℚ
  humidity : ℤ
  pressure : ℤ
  description : String
  icon : String
  wind_speed : ℚ
  clouds : ℤ
  visibility : ℤ
deriving DecidableEq, Repr

/-- The formatted current-weather snapshot (lines 72-87). -/
structure CurrentWeather where
  city : String
  country : String
  temperature : ℚ
  feels_like : ℚ
  temp_min : ℚ
  temp_max : ℚ
  humidity : ℤ
  pressure : ℤ
  description : String
  icon : String
  wind_speed : ℚ
  clouds : ℤ
  visibility : ℤ
  timestamp : Nat
deriving DecidableEq, Repr

/-- Format the upstream payload into the canonical snapshot: temperatures
and wind speed rounded to 1 decimal, description capitalized, visibility
floor-divided by 1000 (metres to km), timestamp set to now. -/
def formatCurrent (now : Nat) (d : CurrentRaw) : CurrentWeather :=
  { city := d.name
  , country := d.country
  , temperature := round1 d.temp
  , feels_like := round1 d.feels_like
  , temp_min := round1 d.temp_min
  , temp_max := round1 d.temp_max
  , humidity := d.humidity
  , pressure := d.pressure
  , description := pyCapitalize d.description
  , icon := d.icon
  , wind_speed := round1 d.wind_speed
  , clouds := d.clouds
  , visibility := Int.fdiv d.visibility 1000
  , timestamp := now }

/-- The fields of the forecast upstream payload the service reads:
`city.name`, `city.country`, and the 3-hour reading list. -/
structure ForecastRaw where
  city_name : String
  city_country : String
  readings : List Reading
deriving DecidableEq, Repr

/-- The formatted forecast bundle (lines 174-179). -/
structure ForecastBundle where
  city : String
  country : String
  forecasts : List DayAgg
  timestamp : Nat
deriving DecidableEq, Repr

/-- A cached value: the single `self.cache` dict stores both current
snapshots and forecast bundles (their keys never collide by
construction). -/
inductive CachedVal where
  | current (w : CurrentWeather)
  | forecast (f : ForecastBundle)
deriving DecidableEq, Repr

/-- The weather service's mutable state: the configured API key ("" when
unset) and the in-memory cache mapping keys to (value, fetched-at). -/
structure WeatherState where
  api_key : String
  cache : List (String × CachedVal × Nat)
deriving DecidableEq, Repr

/-- Dict lookup in the cache. -/
def cacheLookup (cache : List (String × CachedVal × Nat)) (k : String) :
    Option (CachedVal × Nat) :=
  match cache.find? (fun e => e.1 == k) with
  | some e => some e.2
  | none => none

/-- Dict assignment in the cache: replace the entry for the key, or append
a new one. -/
def cacheSet (cache : List (String × CachedVal × Nat)) (k : String)
    (v : CachedVal × Nat) : List (String × CachedVal × Nat) :=
  if cache.any (fun e => e.1 == k) then
    cache.map (fun e => if e.1 == k then (k, v) else e)
  else cache ++ [(k, v)]

/-- `_get_cache_key` (lines 26-28): lowercased, stripped city name, an
underscore, and the query-type discriminator. -/
def cacheKey (city wtype : String) : String :=
  pyStrip (pyLower city) ++ "_" ++ wtype

/-- `_is_cache_valid` (lines 30-32): entry age strictly below one hour
(3600 s). Time is in whole seconds. -/
def is_cache_valid (now ts : Nat) : Bool :=
  decide (now - ts < 3600)

/-- The `try` block of `get_current_weather` once an upstream call is
issued (lines 57-110): on success, format, store under the key with the
current timestamp, and return the snapshot; every failure outcome
(HTTP status error, timeout, anything else) is caught and becomes `none`
with the cache untouched. The third component records that an upstream
call was made. -/
def fetchCurrent (st : WeatherState) (key : String) (now : Nat)
    (u : UpstreamResult CurrentRaw) : Option CachedVal × WeatherState × Bool :=
  match u with
  | .success d =>
      let w := CachedVal.current (formatCurrent now d)
      (some w, { st with cache := cacheSet st.cache key (w, now) }, true)
  | _ => (none, st, true)

/-- `get_current_weather` (`backend/app/services/weather_service.py`,
lines 34-110): without an API key return `None` immediately; otherwise on
an unexpired cached entry return it as-is with no upstream call;
otherwise issue the upstream call through `fetchCurrent`. -/
def get_current_weather (st : WeatherState) (city : String) (now : Nat)
    (u : UpstreamResult CurrentRaw) : Option CachedVal × WeatherState × Bool :=
  if pyTruthy st.api_key = false then (none, st, false)
  else
    let key := cacheKey city "current"
    match cacheLookup st.cache key with
    | some (v, ts) =>
        if is_cache_valid now ts then (some v, st, false)
        else fetchCurrent st key now u
    | none => fetchCurrent st key now u

/-- The `try` block of `get_forecast` once an upstream call is issued
(lines 139-202): on success, group the readings into date runs, aggregate
each run, keep the first `d` summaries, store and return the bundle;
every failure outcome is caught and becomes `none` with the cache
untouched. -/
def fetchForecast (st : WeatherState) (key : String) (d : Int) (now : Nat)
    (dateOf : Nat → Nat) (setOrderOf : List String → List String)
    (u : UpstreamResult ForecastRaw) : Option CachedVal × WeatherState × Bool :=
  match u with
  | .success raw =>
      let runs := groupRuns dateOf raw.readings
      let daily := runs.filterMap
        (fun run => aggregate_day_forecast (setOrderOf (run.map (fun r => r.description))) run)
      let fb := CachedVal.forecast ⟨raw.city_name, raw.city_country, daily.take d.toNat, now⟩
      (some fb, { st with cache := cacheSet st.cache key (fb, now) }, true)
  | _ => (none, st, true)

/-- `get_forecast` (`backend/app/services/weather_service.py`, lines
112-202): without an API key return `None` immediately; otherwise clamp
`days` into [1,5], build the key `<city>_forecast_<days>`, serve an
unexpired cached entry as-is, and otherwise issue the upstream call
through `fetchForecast`. -/
def get_forecast (st : WeatherState) (city : String) (days : Int) (now : Nat)
    (dateOf : Nat → Nat) (setOrderOf : List String → List String)
    (u : UpstreamResult ForecastRaw) : Option CachedVal × WeatherState × Bool :=
  if pyTruthy st.api_key = false then (none, st, false)
  else
    let d := max 1 (min days 5)
    let key := cacheKey city ("forecast_" ++ toString d)
    match cacheLookup st.cache key with
    | some (v, ts) =>
        if is_cache_valid now ts then (some v, st, false)
        else fetchForecast st key d now dateOf setOrderOf u
    | none => fetchForecast st key d now dateOf setOrderOf u

/- ===================== Concrete weather inputs ===================== -/

/-- A reading whose description is `rain` (first in input order). -/
def c7rain : Reading := ⟨0, 10, "rain", "10d", 50, 2, 0⟩

/-- A reading whose description is `sun` (second in input order). -/
def c7sun : Reading := ⟨10800, 12, "sun", "01d", 60, 3, 0⟩

/-- A two-reading run with tied description counts. -/
def c7Readings : List Reading := [c7rain, c7sun]

/-- A valid set-iteration order for the run's descriptions that lists
`sun` before `rain`. -/
def c7Order : List String := ["sun", "rain"]

/-- First reading of the 8-reading single-date run of the spec's
aggregation example. -/
def c7First : Reading := ⟨0, 10, "clear sky", "01d", 50, 2, 0⟩

/-- Remaining readings of the 8-reading run, temps [12,14,16,18,20,18,16]. -/
def c7Rest : List Reading :=
  [⟨10800, 12, "clear sky", "01d", 52, 2, 0⟩,
   ⟨21600, 14, "clear sky", "01d", 54, 3, 0⟩,
   ⟨32400, 16, "few clouds", "02d", 56, 3, 0⟩,
   ⟨43200, 18, "few clouds", "02d", 58, 4, 0⟩,
   ⟨54000, 20, "clear sky", "01d", 60, 4, 0⟩,
   ⟨64800, 18, "clear sky", "01d", 62, 3, 0⟩,
   ⟨75600, 16, "clear sky", "01n", 64, 2, 0⟩]

/-- The 8-reading single-date run of the spec's aggregation example, with
temps [10,12,14,16,18,20,18,16]. -/
def c7Run : List Reading := c7First :: c7Rest

/-- A set-iteration order for the 8-reading run's descriptions. -/
def c7RunOrder : List String := ["clear sky", "few clouds"]

/-- A formatted snapshot standing for a previously cached Paris lookup. -/
def c9W0 : CurrentWeather :=
  ⟨"Paris", "FR", 21, 20, 19, 23, 40, 1013, "Clear sky", "01d", 3, 10, 10, 0⟩

/-- Weather state with a configured key and a Paris entry fetched at
time 0. -/
def c9St : WeatherState :=
  ⟨"k", [("paris_current", CachedVal.current c9W0, 0)]⟩

/-- A fresh upstream payload for Paris. -/
def c9Raw : CurrentRaw :=
  ⟨"Paris", "FR", 22, 21, 20, 24, 45, 1014, "light rain", "10d", 4, 60, 8500⟩

/-- A successful upstream outcome. -/
def c9U : UpstreamResult CurrentRaw := .success c9Raw

/-- Weather state with an unset API key but an unexpired cached Paris
entry. -/
def c10St : WeatherState :=
  ⟨"", [("paris_current", CachedVal.current c9W0, 0)]⟩

/- ===================== Theorems ===================== -/

/-- Result of `normalizeField` is always a list. -/
theorem normalizeField_isList (ov : Option Value) : ∃ l, normalizeField ov = .list l := by
  match ov with
  | none => exact ⟨[], rfl⟩
  | some (.str s) =>
      simp only [normalizeField]
      by_cases h : pyContainsComma s
      · simp [h]
      · by_cases h2 : pyTruthy (pyStrip s) <;> simp [h, h2]
  | some (.list l) => exact ⟨l, rfl⟩
  | some (.num q) => exact ⟨[], rfl⟩
  | some (.bool b) => exact ⟨[], rfl⟩
  | some .null => exact ⟨[], rfl⟩

/-- `normalizeField` maps lists to themselves. -/
theorem normalizeField_list (l : List Value) :
    normalizeField (some (.list l)) = .list l := rfl

/-- C1: every one of the five array fields of
`normalize_suggestion_data r` is a list, never absent, null or a bare
scalar; the list is empty when the field was absent, the original list when
it was already a list, the whitespace-stripped comma-split with empties
dropped when it was a string containing a comma, the singleton of the
stripped string (empty when stripping empties it) when it was a string
without a comma, and empty for any other value type. -/
theorem C1_normalized_fields_are_lists (r : SuggestionData) (k : String)
    (hk : k ∈ arrayFields) :
    ∃ l : List Value, normalize_suggestion_data r k = some (.list l) ∧
      (r k = none → l = []) ∧
      (∀ vl, r k = some (.list vl) → l = vl) ∧
      (∀ s, r k = some (.str s) → pyContainsComma s = true →
        l = (((pySplitComma s).map pyStrip).filter (fun p => pyTruthy p)).map Value.str) ∧
      (∀ s, r k = some (.str s) → pyContainsComma s = false →
        l = if pyTruthy (pyStrip s) then [.str (pyStrip s)] else []) ∧
      (∀ v, r k = some v → v.isStr = false → v.isList = false → l = []) := by
  obtain ⟨l, hl⟩ := normalizeField_isList (r k)
  refine ⟨l, ?_, ?_, ?_, ?_, ?_, ?_⟩
  · simp [normalize_suggestion_data, hk, hl]
  · intro h; rw [h] at hl; simpa [normalizeField] using hl.symm
  · intro vl h; rw [h] at hl
    simpa [normalizeField] using hl.symm
  · intro s h hc; rw [h] at hl
    simp only [normalizeField, hc, if_true] at hl
    simpa using hl.symm
  · intro s h hc; rw [h] at hl
    simp only [normalizeField, hc, Bool.false_eq_true, if_false] at hl
    by_cases h2 : pyTruthy (pyStrip s) <;> simp [h2] at hl ⊢ <;> simpa using hl.symm
  · intro v h hs hlist; rw [h] at hl
    match v, hs, hlist with
    | .num q, _, _ => simpa [normalizeField] using hl.symm
    | .bool b, _, _ => simpa [normalizeField] using hl.symm
    | .null, _, _ => simpa [normalizeField] using hl.symm

/-- Witness for C1 at a concrete record and field. -/
theorem C1_normalized_fields_are_lists_witness :
    ("category" ∈ arrayFields) ∧
    ∃ l : List Value, normalize_suggestion_data c1Record "category" = some (.list l) ∧
      (c1Record "category" = none → l = []) ∧
      (∀ vl, c1Record "category" = some (.list vl) → l = vl) ∧
      (∀ s, c1Record "category" = some (.str s) → pyContainsComma s = true →
        l = (((pySplitComma s).map pyStrip).filter (fun p => pyTruthy p)).map Value.str) ∧
      (∀ s, c1Record "category" = some (.str s) → pyContainsComma s = false →
        l = if pyTruthy (pyStrip s) then [.str (pyStrip s)] else []) ∧
      (∀ v, c1Record "category" = some v → v.isStr = false → v.isList = false → l = []) :=
  ⟨by decide, C1_normalized_fields_are_lists c1Record "category" (by decide)⟩

/-- `normalizeField` is idempotent once re-wrapped in `some`. -/
theorem normalizeField_idem (ov : Option Value) :
    normalizeField (some (normalizeField ov)) = normalizeField ov := by
  obtain ⟨l, hl⟩ := normalizeField_isList ov
  rw [hl]; rfl

/-- C2: `normalize_suggestion_data` is idempotent: normalizing twice gives
the same record as normalizing once. -/
theorem C2_normalize_idempotent (r : SuggestionData) :
    normalize_suggestion_data (normalize_suggestion_data r) = normalize_suggestion_data r := by
  funext k
  by_cases hk : k ∈ arrayFields
  · simp only [normalize_suggestion_data, hk, if_true]
    exact congrArg some (normalizeField_idem (r k))
  · simp [normalize_suggestion_data, hk]

/- ===================== Listing pipeline lemmas ===================== -/

/-- A fetched page never exceeds the limit passed to the query. -/
theorem runQuery_length_le (db : List SRecord) (q : SQuery) (skip lim : Nat) :
    (runQuery db q skip lim).length ≤ lim := by
  simp only [runQuery, List.length_take]
  exact min_le_left _ _

/-- The cold-start step does nothing on a non-empty collection. -/
theorem coldStartStep_nonempty (gen : GenCollab) (now : Nat) (db : List SRecord)
    (h : db.length ≠ 0) : coldStartStep gen now db = db := by
  simp [coldStartStep, h]

/-- With no filters supplied, the filter document matches every record. -/
theorem matchesQuery_noFilters (p : ListParams) (r : SRecord)
    (h : hasFilters p = false) : matchesQuery (buildQuery p) r = true := by
  simp only [hasFilters, Bool.or_eq_false_iff] at h
  obtain ⟨⟨⟨⟨⟨hf, hc⟩, hb⟩, hco⟩, hdm⟩, hdM⟩ := h
  have hdm' : p.duration_min = none := by
    cases hx : p.duration_min <;> simp_all
  have hdM' : p.duration_max = none := by
    cases hx : p.duration_max <;> simp_all
  simp [matchesQuery, buildQuery, hf, hc, hb, hco, hdm', hdM']

/-- Cold-start stamping preserves the batch length. -/
theorem stampColdStart_length (now : Nat) :
    ∀ (i : Nat) (l : List SRecord), (stampColdStart now i l).length = l.length
  | _, [] => rfl
  | i, _ :: rest => by
      simp [stampColdStart, stampColdStart_length now (i + 1) rest]

/-- Cold-start stamping marks record `i` featured exactly when `i < 6`. -/
theorem stampColdStart_featured (now : Nat) :
    ∀ (i : Nat) (l : List SRecord),
      (stampColdStart now i l).map (fun r => r.is_featured)
        = (List.range' i l.length).map (fun j => decide (j < 6))
  | _, [] => rfl
  | i, s :: rest => by
      simp [stampColdStart, List.range', stampColdStart_featured now (i + 1) rest]

/-- Cold-start stamping sets both timestamps on every record. -/
theorem stampColdStart_timestamps (now : Nat) :
    ∀ (i : Nat) (l : List SRecord), ∀ r ∈ stampColdStart now i l,
      r.created_at = some now ∧ r.updated_at = some now
  | _, [], _, hr => by simp [stampColdStart] at hr
  | i, s :: rest, r, hr => by
      simp only [stampColdStart, List.mem_cons] at hr
      rcases hr with hr | hr
      · subst hr; exact ⟨rfl, rfl⟩
      · exact stampColdStart_timestamps now (i + 1) rest r hr

/-- Backfill stamping marks every record not-featured and sets both
timestamps. -/
theorem stampBackfill_flags (now : Nat) (l : List SRecord) :
    ∀ r ∈ stampBackfill now l,
      r.is_featured = false ∧ r.created_at = some now ∧ r.updated_at = some now := by
  intro r hr
  simp only [stampBackfill, List.mem_map] at hr
  obtain ⟨s, _, hs⟩ := hr
  subst hs
  exact ⟨rfl, rfl, rfl⟩

/-- The page returned by the listing operation is always bounded by the
effective limit. -/
theorem get_suggestions_page_bound (gen : GenCollab) (now : Nat)
    (db : List SRecord) (p : ListParams) :
    ((get_suggestions gen now db p).1.suggestions).length ≤ effectiveLimit p := by
  unfold get_suggestions
  dsimp only
  split
  · split
    · split
      · exact runQuery_length_le _ _ _ _
      · exact runQuery_length_le _ _ _ _
    · exact runQuery_length_le _ _ _ _
  · exact runQuery_length_le _ _ _ _

/-- C5: with at least one filter supplied the returned page holds at most
`min limit 10` records; with no filter the caller-requested limit is used
unchanged as the page size. -/
theorem C5_effective_limit_cap (gen : GenCollab) (now : Nat) (db : List SRecord)
    (p : ListParams) (h1 : 1 ≤ p.limit) (h2 : p.limit ≤ 50) :
    (hasFilters p = true →
      ((get_suggestions gen now db p).1.suggestions).length ≤ min p.limit 10) ∧
    (hasFilters p = false →
      effectiveLimit p = p.limit ∧
      ((get_suggestions gen now db p).1.suggestions).length ≤ p.limit) := by
  constructor
  · intro hf
    have := get_suggestions_page_bound gen now db p
    rwa [effectiveLimit, if_pos hf] at this
  · intro hf
    have heq : effectiveLimit p = p.limit := by
      rw [effectiveLimit, if_neg (by simp [hf])]
    exact ⟨heq, heq ▸ get_suggestions_page_bound gen now db p⟩

/-- Witness for C5 at a filtered request with limit 1 against a store
holding beach records. -/
theorem C5_effective_limit_cap_witness :
    1 ≤ c3Params.limit ∧ c3Params.limit ≤ 50 ∧
    ((hasFilters c3Params = true →
       ((get_suggestions c3Gen 7 [recCity] c3Params).1.suggestions).length ≤ min c3Params.limit 10) ∧
     (hasFilters c3Params = false →
       effectiveLimit c3Params = c3Params.limit ∧
       ((get_suggestions c3Gen 7 [recCity] c3Params).1.suggestions).length ≤ c3Params.limit)) :=
  ⟨by decide, by decide, C5_effective_limit_cap c3Gen 7 [recCity] c3Params (by decide) (by decide)⟩

/-- C3 counterexample: with filter `category=beach`, `limit=1`, `skip=1`
against a store holding one non-matching record, the backfill happens
(the final store has grown), but the returned page is not the result of
re-running the filtered query with the original skip and the reported
total is not the window-independent matching count (the code drops the
skip on the re-query and reports the page length as the total). -/
theorem C3_backfill_counterexample :
    (get_suggestions c3Gen 7 [recCity] c3Params).2.length = 3 ∧
    (get_suggestions c3Gen 7 [recCity] c3Params).1.suggestions ≠
      runQuery (get_suggestions c3Gen 7 [recCity] c3Params).2 (buildQuery c3Params)
        c3Params.skip (effectiveLimit c3Params) ∧
    (get_suggestions c3Gen 7 [recCity] c3Params).1.total ≠
      countDocs (get_suggestions c3Gen 7 [recCity] c3Params).2 (buildQuery c3Params) := by
  decide

/-- C3 amended: when the filtered count is zero, a filter was supplied, no
identifier lookup was requested and the collection is non-empty, the
pipeline asks the collaborator for `min(effective limit, 6)` records with
the same category/budget/continent hints, stamps them not-featured with
both timestamps, persists them, and re-runs the filtered query with the
same filter, sort and limit but with the skip dropped (skip 0); the
response's total is the length of that re-run page, not a
window-independent count. -/
theorem C3_backfill_amended (gen : GenCollab) (now : Nat) (db : List SRecord)
    (p : ListParams) (gs : List SRecord)
    (hdb : db.length ≠ 0)
    (hzero : countDocs db (buildQuery p) = 0)
    (hf : hasFilters p = true)
    (hgen : gen ⟨p.category, p.budget, p.continent, min (effectiveLimit p) 6⟩ = .ok gs)
    (hgs : gs ≠ []) :
    get_suggestions gen now db p =
      (⟨(runQuery (db ++ stampBackfill now gs) (buildQuery p) 0 (effectiveLimit p)).length,
        runQuery (db ++ stampBackfill now gs) (buildQuery p) 0 (effectiveLimit p),
        buildQuery p⟩,
       db ++ stampBackfill now gs) ∧
    (∀ r ∈ stampBackfill now gs,
      r.is_featured = false ∧ r.created_at = some now ∧ r.updated_at = some now) := by
  have hempty : gs.isEmpty = false := by
    cases gs with
    | nil => simp at hgs
    | cons a l => rfl
  refine ⟨?_, stampBackfill_flags now gs⟩
  simp only [get_suggestions, coldStartStep_nonempty gen now db hdb, hzero, hgen, hempty,
    hf, and_self, if_true, Bool.false_eq_true, if_false]

/-- Witness for the amended C3 at the concrete backfill scenario. -/
theorem C3_backfill_amended_witness :
    ([recCity] : List SRecord).length ≠ 0 ∧
    countDocs [recCity] (buildQuery c3Params) = 0 ∧
    hasFilters c3Params = true ∧
    c3Gen ⟨c3Params.category, c3Params.budget, c3Params.continent,
      min (effectiveLimit c3Params) 6⟩ = .ok [recBeach1, recBeach2] ∧
    ([recBeach1, recBeach2] : List SRecord) ≠ [] ∧
    (get_suggestions c3Gen 7 [recCity] c3Params =
      (⟨(runQuery ([recCity] ++ stampBackfill 7 [recBeach1, recBeach2]) (buildQuery c3Params)
            0 (effectiveLimit c3Params)).length,
        runQuery ([recCity] ++ stampBackfill 7 [recBeach1, recBeach2]) (buildQuery c3Params)
            0 (effectiveLimit c3Params),
        buildQuery c3Params⟩,
       [recCity] ++ stampBackfill 7 [recBeach1, recBeach2]) ∧
     (∀ r ∈ stampBackfill 7 [recBeach1, recBeach2],
       r.is_featured = false ∧ r.created_at = some 7 ∧ r.updated_at = some 7)) :=
  ⟨by decide, by decide, by decide, rfl, by decide,
   C3_backfill_amended c3Gen 7 [recCity] c3Params [recBeach1, recBeach2]
     (by decide) (by decide) (by decide) rfl (by decide)⟩

/-- C4 counterexample: the collection is empty, no identifier lookup is
requested, the cold-start batch of 12 is generated and persisted — yet
the same call's response reports a total of 0, because a category filter
was supplied that the generated batch does not satisfy. -/
theorem C4_cold_start_counterexample :
    ([] : List SRecord).length = 0 ∧
    (get_suggestions c4Gen 0 [] c4Params).2.length = 12 ∧
    (get_suggestions c4Gen 0 [] c4Params).1.total = 0 := by
  decide

/-- C4 amended: restricted to calls with no filter supplied (as in the
spec's cold-start rule): on an empty collection, with the collaborator
returning a batch of 12, the listing stamps both timestamps on each
record, marks exactly the first 6 featured, persists the batch before
running the query, and reports a total of 12 on the same call. -/
theorem C4_cold_start_amended (gen : GenCollab) (now : Nat) (p : ListParams)
    (gs : List SRecord)
    (hnf : hasFilters p = false)
    (hgen : gen ⟨none, none, none, 12⟩ = .ok gs)
    (hlen : gs.length = 12) :
    (get_suggestions gen now [] p).2 = stampColdStart now 0 gs ∧
    (get_suggestions gen now [] p).1.total = 12 ∧
    (get_suggestions gen now [] p).1.suggestions =
      runQuery (stampColdStart now 0 gs) (buildQuery p) p.skip p.limit ∧
    (stampColdStart now 0 gs).map (fun r => r.is_featured) =
      List.replicate 6 true ++ List.replicate 6 false ∧
    (∀ r ∈ stampColdStart now 0 gs, r.created_at = some now ∧ r.updated_at = some now) := by
  have hempty : gs.isEmpty = false := by
    cases gs with
    | nil => simp at hlen
    | cons a l => rfl
  have hcold : coldStartStep gen now [] = stampColdStart now 0 gs := by
    simp [coldStartStep, hgen, hempty]
  have hcount : countDocs (stampColdStart now 0 gs) (buildQuery p) = 12 := by
    unfold countDocs
    rw [List.filter_eq_self.mpr (fun r _ => matchesQuery_noFilters p r hnf),
      stampColdStart_length now 0 gs, hlen]
  have heff : effectiveLimit p = p.limit := by
    rw [effectiveLimit, if_neg (by simp [hnf])]
  have hmain : get_suggestions gen now [] p =
      (⟨12, runQuery (stampColdStart now 0 gs) (buildQuery p) p.skip p.limit, buildQuery p⟩,
        stampColdStart now 0 gs) := by
    simp only [get_suggestions, hcold, hcount, heff]
    rw [if_neg]
    rintro ⟨h12, -⟩
    exact absurd h12 (by decide)
  refine ⟨by rw [hmain], by rw [hmain], by rw [hmain], ?_, stampColdStart_timestamps now 0 gs⟩
  rw [stampColdStart_featured now 0 gs, hlen]
  decide

/-- Witness for the amended C4 at the concrete cold-start scenario. -/
theorem C4_cold_start_amended_witness :
    hasFilters c4wParams = false ∧
    c4wGen ⟨none, none, none, 12⟩ = .ok (List.replicate 12 recMountain) ∧
    (List.replicate 12 recMountain).length = 12 ∧
    ((get_suggestions c4wGen 3 [] c4wParams).2 = stampColdStart 3 0 (List.replicate 12 recMountain) ∧
     (get_suggestions c4wGen 3 [] c4wParams).1.total = 12 ∧
     (get_suggestions c4wGen 3 [] c4wParams).1.suggestions =
       runQuery (stampColdStart 3 0 (List.replicate 12 recMountain)) (buildQuery c4wParams)
         c4wParams.skip c4wParams.limit ∧
     (stampColdStart 3 0 (List.replicate 12 recMountain)).map (fun r => r.is_featured) =
       List.replicate 6 true ++ List.replicate 6 false ∧
     (∀ r ∈ stampColdStart 3 0 (List.replicate 12 recMountain),
       r.created_at = some 3 ∧ r.updated_at = some 3)) :=
  ⟨by decide, rfl, by decide,
   C4_cold_start_amended c4wGen 3 c4wParams (List.replicate 12 recMountain)
     (by decide) rfl (by decide)⟩

/-- C6 counterexample: the LLM answers non-JSON text, the decoder fails,
`generate_suggestions` raises the distinct invalid-response error — and the
listing operation returns exactly the response it returns when the
collaborator succeeds with an empty batch: the error is swallowed inside
the listing operation and never reaches its caller. -/
theorem C6_error_swallowed_counterexample :
    AIService.generate_suggestions c6Parse "not json" =
      .error (.invalidAIResponse "AI returned invalid JSON: Expecting value") ∧
    get_suggestions c6Gen 0 [recCity] c4Params =
      get_suggestions (fun _ => .ok []) 0 [recCity] c4Params := by
  constructor
  · rfl
  · decide

/-- C6 amended: a response text that fails to parse as JSON makes
`generate_suggestions` raise a distinct invalid-response error to its own
caller, wrapping the decoder's message (the raw text goes to the log, not
into the error); but the listing operation catches every generation error
and produces the same response as a collaborator that returns nothing, so
the error never propagates to the listing operation's caller. -/
theorem C6_invalid_response_amended
    (parse : String → Except String (List SRecord)) (raw msg : String)
    (hparse : parse (stripCodeFence raw) = .error msg)
    (e : GenError) (now : Nat) (db : List SRecord) (p : ListParams) :
    AIService.generate_suggestions parse raw =
      .error (.invalidAIResponse ("AI returned invalid JSON: " ++ msg)) ∧
    get_suggestions (fun _ => .error e) now db p =
      get_suggestions (fun _ => .ok []) now db p := by
  constructor
  · simp [AIService.generate_suggestions, hparse]
  · simp [get_suggestions, coldStartStep]

/-- Witness for the amended C6 at the concrete failing-decoder scenario. -/
theorem C6_invalid_response_amended_witness :
    c6Parse (stripCodeFence "not json") = .error "Expecting value" ∧
    (AIService.generate_suggestions c6Parse "not json" =
       .error (.invalidAIResponse ("AI returned invalid JSON: " ++ "Expecting value")) ∧
     get_suggestions (fun _ => .error (.invalidAIResponse "boom")) 0 [recCity] c4Params =
       get_suggestions (fun _ => .ok []) 0 [recCity] c4Params) :=
  ⟨rfl,
   C6_invalid_response_amended c6Parse "not json" "Expecting value" rfl
     (.invalidAIResponse "boom") 0 [recCity] c4Params⟩

/- ===================== Aggregation lemmas ===================== -/

/-- The Python-max fold stays inside the candidates. -/
theorem foldl_maxBy_mem (key : String → Nat) (xs : List String) :
    ∀ b, xs.foldl (fun best a => if key best < key a then a else best) b ∈ b :: xs := by
  induction xs with
  | nil => intro b; simp
  | cons x xs ih =>
      intro b
      simp only [List.foldl_cons]
      by_cases h : key b < key x
      · simp only [if_pos h]
        have := ih x
        simp only [List.mem_cons] at this ⊢
        tauto
      · simp only [if_neg h]
        have := ih b
        simp only [List.mem_cons] at this ⊢
        tauto

/-- The Python-max fold dominates the seed and every candidate. -/
theorem foldl_maxBy_ge (key : String → Nat) (xs : List String) :
    ∀ b, key b ≤ key (xs.foldl (fun best a => if key best < key a then a else best) b) ∧
      ∀ a ∈ xs, key a ≤ key (xs.foldl (fun best a => if key best < key a then a else best) b) := by
  induction xs with
  | nil => intro b; exact ⟨le_refl _, by simp⟩
  | cons x xs ih =>
      intro b
      simp only [List.foldl_cons]
      by_cases h : key b < key x
      · simp only [if_pos h]
        obtain ⟨h1, h2⟩ := ih x
        refine ⟨le_trans (le_of_lt h) h1, ?_⟩
        intro a ha
        rcases List.mem_cons.mp ha with rfl | ha
        · exact h1
        · exact h2 a ha
      · simp only [if_neg h]
        obtain ⟨h1, h2⟩ := ih b
        refine ⟨h1, ?_⟩
        intro a ha
        rcases List.mem_cons.mp ha with rfl | ha
        · exact le_trans (Nat.le_of_not_lt h) h1
        · exact h2 a ha

/-- The min fold is below its seed and every element. -/
theorem foldl_min_le (xs : List ℚ) :
    ∀ b, xs.foldl min b ≤ b ∧ ∀ x ∈ xs, xs.foldl min b ≤ x := by
  induction xs with
  | nil => intro b; exact ⟨le_refl _, by simp⟩
  | cons x xs ih =>
      intro b
      simp only [List.foldl_cons]
      obtain ⟨h1, h2⟩ := ih (min b x)
      refine ⟨le_trans h1 (min_le_left _ _), ?_⟩
      intro y hy
      rcases List.mem_cons.mp hy with rfl | hy
      · exact le_trans h1 (min_le_right _ _)
      · exact h2 y hy

/-- The min fold is the seed or one of the elements. -/
theorem foldl_min_mem (xs : List ℚ) :
    ∀ b, xs.foldl min b = b ∨ xs.foldl min b ∈ xs := by
  induction xs with
  | nil => intro b; left; rfl
  | cons x xs ih =>
      intro b
      simp only [List.foldl_cons]
      rcases ih (min b x) with h | h
      · rw [h]
        rcases le_total b x with hbx | hbx
        · left; exact min_eq_left hbx
        · right; rw [min_eq_right hbx]; exact List.mem_cons_self x xs
      · right; exact List.mem_cons_of_mem x h

/-- The max fold is above its seed and every element. -/
theorem foldl_max_ge (xs : List ℚ) :
    ∀ b, b ≤ xs.foldl max b ∧ ∀ x ∈ xs, x ≤ xs.foldl max b := by
  induction xs with
  | nil => intro b; exact ⟨le_refl _, by simp⟩
  | cons x xs ih =>
      intro b
      simp only [List.foldl_cons]
      obtain ⟨h1, h2⟩ := ih (max b x)
      refine ⟨le_trans (le_max_left _ _) h1, ?_⟩
      intro y hy
      rcases List.mem_cons.mp hy with rfl | hy
      · exact le_trans (le_max_right _ _) h1
      · exact h2 y hy

/-- The max fold is the seed or one of the elements. -/
theorem foldl_max_mem (xs : List ℚ) :
    ∀ b, xs.foldl max b = b ∨ xs.foldl max b ∈ xs := by
  induction xs with
  | nil => intro b; left; rfl
  | cons x xs ih =>
      intro b
      simp only [List.foldl_cons]
      rcases ih (max b x) with h | h
      · rw [h]
        rcases le_total b x with hbx | hbx
        · right; rw [max_eq_right hbx]; exact List.mem_cons_self x xs
        · left; exact max_eq_left hbx
      · right; exact List.mem_cons_of_mem x h

/-- `listMin` of a non-empty list is an element and a lower bound. -/
theorem listMin_spec (x : ℚ) (xs : List ℚ) :
    listMin (x :: xs) ∈ x :: xs ∧ ∀ y ∈ x :: xs, listMin (x :: xs) ≤ y := by
  obtain ⟨h1, h2⟩ := foldl_min_le xs x
  constructor
  · rcases foldl_min_mem xs x with h | h
    · rw [listMin, h]; exact List.mem_cons_self x xs
    · exact List.mem_cons_of_mem x h
  · intro y hy
    rcases List.mem_cons.mp hy with rfl | hy
    · exact h1
    · exact h2 y hy

/-- `listMax` of a non-empty list is an element and an upper bound. -/
theorem listMax_spec (x : ℚ) (xs : List ℚ) :
    listMax (x :: xs) ∈ x :: xs ∧ ∀ y ∈ x :: xs, y ≤ listMax (x :: xs) := by
  obtain ⟨h1, h2⟩ := foldl_max_ge xs x
  constructor
  · rcases foldl_max_mem xs x with h | h
    · rw [listMax, h]; exact List.mem_cons_self x xs
    · exact List.mem_cons_of_mem x h
  · intro y hy
    rcases List.mem_cons.mp hy with rfl | hy
    · exact h1
    · exact h2 y hy

/-- C7 counterexample: for a run whose two descriptions are tied, a
legitimate set-iteration order (`sun` before `rain`) makes the aggregation
return `Sun`, while the tie-break the claim prescribes — first-encountered
maximum in input order — yields `Rain`: the code's tie-break is
set-iteration-order dependent, not deterministically first-encountered
(also visible: the returned description is capitalized). -/
theorem C7_tiebreak_counterexample :
    isSetEnum c7Order (c7Readings.map (fun r => r.description)) ∧
    (aggregate_day_forecast c7Order c7Readings).map (fun a => a.description) = some "Sun" ∧
    pyCapitalize ((pyMaxBy (fun d => (c7Readings.map (fun r => r.description)).count d)
        (c7Readings.map (fun r => r.description))).getD "") = "Rain" := by
  refine ⟨?_, ?_, ?_⟩
  · unfold isSetEnum
    exact ⟨by decide, by decide, by decide⟩
  · decide
  · decide

/-- C7 amended: for every non-empty run and every set-iteration order of
its distinct descriptions, the aggregation returns the run's minimum,
maximum and mean temperature rounded to 1 decimal, a capitalized
description of maximal frequency in the run (which one is unspecified
under ties — it depends on the runtime's set-iteration order), the icon of
the middle-indexed reading, the mean humidity rounded to integer, the mean
wind speed rounded to 1 decimal, and the maximum precipitation probability
times 100 rounded to integer; in particular the 8-reading run with temps
[10,12,14,16,18,20,18,16] yields temp_min 10, temp_max 20, temp_avg 15.5. -/
theorem C7_aggregate_amended (setOrder : List String) (first : Reading) (rest : List Reading)
    (hord : isSetEnum setOrder ((first :: rest).map (fun r => r.description))) :
    (∃ agg, aggregate_day_forecast setOrder (first :: rest) = some agg ∧
      agg.temp_min = round1 (listMin ((first :: rest).map (fun r => r.temp))) ∧
      agg.temp_max = round1 (listMax ((first :: rest).map (fun r => r.temp))) ∧
      agg.temp_avg = round1 (listSum ((first :: rest).map (fun r => r.temp)) /
        (((first :: rest).length : ℚ))) ∧
      listMin ((first :: rest).map (fun r => r.temp)) ∈ (first :: rest).map (fun r => r.temp) ∧
      (∀ t ∈ (first :: rest).map (fun r => r.temp),
        listMin ((first :: rest).map (fun r => r.temp)) ≤ t) ∧
      listMax ((first :: rest).map (fun r => r.temp)) ∈ (first :: rest).map (fun r => r.temp) ∧
      (∀ t ∈ (first :: rest).map (fun r => r.temp),
        t ≤ listMax ((first :: rest).map (fun r => r.temp))) ∧
      (∃ d, d ∈ (first :: rest).map (fun r => r.description) ∧
        (∀ d' ∈ (first :: rest).map (fun r => r.description),
          ((first :: rest).map (fun r => r.description)).count d' ≤
            ((first :: rest).map (fun r => r.description)).count d) ∧
        agg.description = pyCapitalize d) ∧
      agg.icon = (((first :: rest).get? ((first :: rest).length / 2)).getD first).icon ∧
      agg.humidity = roundHalfEven (listSum ((first :: rest).map (fun r => r.humidity)) /
        (((first :: rest).length : ℚ))) ∧
      agg.wind_speed = round1 (listSum ((first :: rest).map (fun r => r.wind_speed)) /
        (((first :: rest).length : ℚ))) ∧
      agg.pop = roundHalfEven (listMax ((first :: rest).map (fun r => r.pop)) * 100)) ∧
    (aggregate_day_forecast c7RunOrder c7Run).map
      (fun a => (a.temp_min, a.temp_max, a.temp_avg)) = some (10, 20, 31/2) := by
  constructor
  · obtain ⟨hnd, hsub, hsup⟩ := hord
    have hone : first.description ∈ setOrder := hsup _ (by simp)
    cases setOrder with
    | nil => simp at hone
    | cons o os =>
        refine ⟨_, rfl, rfl, rfl, rfl, (listMin_spec _ _).1, (listMin_spec _ _).2,
          (listMax_spec _ _).1, (listMax_spec _ _).2, ?_, rfl, rfl, rfl, rfl⟩
        have hge := foldl_maxBy_ge
          (fun d => ((first :: rest).map (fun r => r.description)).count d) os o
        have hmem := foldl_maxBy_mem
          (fun d => ((first :: rest).map (fun r => r.description)).count d) os o
        refine ⟨_, hsub _ hmem, ?_, rfl⟩
        intro d' hd'
        rcases List.mem_cons.mp (hsup d' hd') with h | h
        · rw [h]; exact hge.1
        · exact hge.2 d' h
  · show (aggregate_day_forecast c7RunOrder (c7First :: c7Rest)).map
        (fun a => (a.temp_min, a.temp_max, a.temp_avg)) = some (10, 20, 31/2)
    norm_num [aggregate_day_forecast, c7First, c7Rest, listMin, listMax, listSum,
      round1, roundHalfEven, List.foldl, min_def, max_def]

/-- Witness for the amended C7 at the 8-reading single-date run. -/
theorem C7_aggregate_amended_witness :
    isSetEnum c7RunOrder ((c7First :: c7Rest).map (fun r => r.description)) ∧
    ((∃ agg, aggregate_day_forecast c7RunOrder (c7First :: c7Rest) = some agg ∧
      agg.temp_min = round1 (listMin ((c7First :: c7Rest).map (fun r => r.temp))) ∧
      agg.temp_max = round1 (listMax ((c7First :: c7Rest).map (fun r => r.temp))) ∧
      agg.temp_avg = round1 (listSum ((c7First :: c7Rest).map (fun r => r.temp)) /
        (((c7First :: c7Rest).length : ℚ))) ∧
      listMin ((c7First :: c7Rest).map (fun r => r.temp)) ∈ (c7First :: c7Rest).map (fun r => r.temp) ∧
      (∀ t ∈ (c7First :: c7Rest).map (fun r => r.temp),
        listMin ((c7First :: c7Rest).map (fun r => r.temp)) ≤ t) ∧
      listMax ((c7First :: c7Rest).map (fun r => r.temp)) ∈ (c7First :: c7Rest).map (fun r => r.temp) ∧
      (∀ t ∈ (c7First :: c7Rest).map (fun r => r.temp),
        t ≤ listMax ((c7First :: c7Rest).map (fun r => r.temp))) ∧
      (∃ d, d ∈ (c7First :: c7Rest).map (fun r => r.description) ∧
        (∀ d' ∈ (c7First :: c7Rest).map (fun r => r.description),
          ((c7First :: c7Rest).map (fun r => r.description)).count d' ≤
            ((c7First :: c7Rest).map (fun r => r.description)).count d) ∧
        agg.description = pyCapitalize d) ∧
      agg.icon = (((c7First :: c7Rest).get? ((c7First :: c7Rest).length / 2)).getD c7First).icon ∧
      agg.humidity = roundHalfEven (listSum ((c7First :: c7Rest).map (fun r => r.humidity)) /
        (((c7First :: c7Rest).length : ℚ))) ∧
      agg.wind_speed = round1 (listSum ((c7First :: c7Rest).map (fun r => r.wind_speed)) /
        (((c7First :: c7Rest).length : ℚ))) ∧
      agg.pop = roundHalfEven (listMax ((c7First :: c7Rest).map (fun r => r.pop)) * 100)) ∧
     (aggregate_day_forecast c7RunOrder c7Run).map
       (fun a => (a.temp_min, a.temp_max, a.temp_avg)) = some (10, 20, 31/2)) :=
  ⟨by unfold isSetEnum; exact ⟨by decide, by decide, by decide⟩,
   C7_aggregate_amended c7RunOrder c7First c7Rest
     (by unfold isSetEnum; exact ⟨by decide, by decide, by decide⟩)⟩

/- ===================== Weather cache lemmas ===================== -/

/-- A failed upstream current-conditions call yields `none` and leaves the
state untouched. -/
theorem fetchCurrent_failure (st : WeatherState) (key : String) (now : Nat)
    (u : UpstreamResult CurrentRaw) (h : u.isFailure = true) :
    fetchCurrent st key now u = (none, st, true) := by
  cases u with
  | success d => simp [UpstreamResult.isFailure] at h
  | httpError s => rfl
  | timeout => rfl
  | otherError m => rfl

/-- A failed upstream forecast call yields `none` and leaves the state
untouched. -/
theorem fetchForecast_failure (st : WeatherState) (key : String) (d : Int) (now : Nat)
    (dateOf : Nat → Nat) (setOrderOf : List String → List String)
    (u : UpstreamResult ForecastRaw) (h : u.isFailure = true) :
    fetchForecast st key d now dateOf setOrderOf u = (none, st, true) := by
  cases u with
  | success raw => simp [UpstreamResult.isFailure] at h
  | httpError s => rfl
  | timeout => rfl
  | otherError m => rfl

/-- Issuing the current-conditions try block always counts as an upstream
call. -/
theorem fetchCurrent_called (st : WeatherState) (key : String) (now : Nat)
    (u : UpstreamResult CurrentRaw) : (fetchCurrent st key now u).2.2 = true := by
  cases u <;> rfl

/-- On success the current-conditions try block stores the formatted
snapshot under the key with the current timestamp and returns it. -/
theorem fetchCurrent_success (st : WeatherState) (key : String) (now : Nat)
    (d : CurrentRaw) :
    fetchCurrent st key now (.success d) =
      (some (.current (formatCurrent now d)),
       { st with cache := cacheSet st.cache key (.current (formatCurrent now d), now) },
       true) := rfl

/-- C8: whenever `get_current_weather` or `get_forecast` actually issues
its upstream call and that call fails — HTTP error (not-found,
unauthorized or any other status), timeout, or any other error — the
operation returns `None` with the cache untouched; no failure escapes the
boundary. -/
theorem C8_upstream_failure_absent (st : WeatherState) (city : String) (now : Nat)
    (days : Int) (dateOf : Nat → Nat) (setOrderOf : List String → List String)
    (uc : UpstreamResult CurrentRaw) (uf : UpstreamResult ForecastRaw)
    (hc : uc.isFailure = true) (hf : uf.isFailure = true) :
    ((get_current_weather st city now uc).2.2 = true →
      get_current_weather st city now uc = (none, st, true)) ∧
    ((get_forecast st city days now dateOf setOrderOf uf).2.2 = true →
      get_forecast st city days now dateOf setOrderOf uf = (none, st, true)) := by
  constructor
  · intro hcall
    unfold get_current_weather at hcall ⊢
    by_cases hk : pyTruthy st.api_key = false
    · rw [if_pos hk] at hcall
      exact absurd hcall (by simp)
    · rw [if_neg hk] at hcall ⊢
      cases hl : cacheLookup st.cache (cacheKey city "current") with
      | none =>
          simp only [hl] at hcall ⊢
          exact fetchCurrent_failure st _ now uc hc
      | some vts =>
          obtain ⟨v, ts⟩ := vts
          simp only [hl] at hcall ⊢
          by_cases hv : is_cache_valid now ts = true
          · rw [if_pos hv] at hcall
            exact absurd hcall (by simp)
          · rw [if_neg hv] at hcall ⊢
            exact fetchCurrent_failure st _ now uc hc
  · intro hcall
    unfold get_forecast at hcall ⊢
    by_cases hk : pyTruthy st.api_key = false
    · rw [if_pos hk] at hcall
      exact absurd hcall (by simp)
    · rw [if_neg hk] at hcall ⊢
      cases hl : cacheLookup st.cache
          (cacheKey city ("forecast_" ++ toString (max 1 (min days 5)))) with
      | none =>
          simp only [hl] at hcall ⊢
          exact fetchForecast_failure st _ _ now dateOf setOrderOf uf hf
      | some vts =>
          obtain ⟨v, ts⟩ := vts
          simp only [hl] at hcall ⊢
          by_cases hv : is_cache_valid now ts = true
          · rw [if_pos hv] at hcall
            exact absurd hcall (by simp)
          · rw [if_neg hv] at hcall ⊢
            exact fetchForecast_failure st _ _ now dateOf setOrderOf uf hf

/-- Witness for C8 with a configured key, an empty cache and upstream
timeouts. -/
theorem C8_upstream_failure_absent_witness :
    (UpstreamResult.timeout : UpstreamResult CurrentRaw).isFailure = true ∧
    (UpstreamResult.timeout : UpstreamResult ForecastRaw).isFailure = true ∧
    (((get_current_weather ⟨"k", []⟩ "Paris" 0 .timeout).2.2 = true →
       get_current_weather ⟨"k", []⟩ "Paris" 0 .timeout = (none, ⟨"k", []⟩, true)) ∧
     ((get_forecast ⟨"k", []⟩ "Paris" 3 0 (fun d => d / 86400) id .timeout).2.2 = true →
       get_forecast ⟨"k", []⟩ "Paris" 3 0 (fun d => d / 86400) id .timeout =
         (none, ⟨"k", []⟩, true))) :=
  ⟨rfl, rfl,
   C8_upstream_failure_absent ⟨"k", []⟩ "Paris" 0 3 (fun d => d / 86400) id
     .timeout .timeout rfl rfl⟩

/-- C9: with a configured key, an entry whose age is strictly below one
hour is served as-is with no upstream call and no cache change; when the
key is absent or the entry's age is one hour or more, the upstream call is
made, and on success the entry is replaced by the freshly formatted value
stamped with the current time. -/
theorem C9_cache_ttl (st : WeatherState) (city : String) (now : Nat)
    (u : UpstreamResult CurrentRaw) (hkey : pyTruthy st.api_key = true) :
    (∀ v ts, cacheLookup st.cache (cacheKey city "current") = some (v, ts) →
      now - ts < 3600 →
      get_current_weather st city now u = (some v, st, false)) ∧
    ((cacheLookup st.cache (cacheKey city "current") = none ∨
      ∃ v ts, cacheLookup st.cache (cacheKey city "current") = some (v, ts) ∧
        3600 ≤ now - ts) →
      ((get_current_weather st city now u).2.2 = true ∧
       ∀ d, u = .success d →
         get_current_weather st city now u =
           (some (.current (formatCurrent now d)),
            { st with cache :=
                cacheSet st.cache (cacheKey city "current") (.current (formatCurrent now d), now) },
            true))) := by
  have hk : ¬ (pyTruthy st.api_key = false) := by simp [hkey]
  constructor
  · intro v ts hl hv
    unfold get_current_weather
    rw [if_neg hk]
    simp only [hl]
    rw [if_pos (by simp [is_cache_valid, hv])]
  · intro hmiss
    rcases hmiss with hl | ⟨v, ts, hl, hexp⟩
    · constructor
      · unfold get_current_weather
        rw [if_neg hk]
        simp only [hl]
        exact fetchCurrent_called st _ now u
      · intro d hd
        subst hd
        unfold get_current_weather
        rw [if_neg hk]
        simp only [hl]
        exact fetchCurrent_success st _ now d
    · have hinv : is_cache_valid now ts = false := by
        simp [is_cache_valid]
        omega
      constructor
      · unfold get_current_weather
        rw [if_neg hk]
        simp only [hl, hinv, Bool.false_eq_true, if_false]
        exact fetchCurrent_called st _ now u
      · intro d hd
        subst hd
        unfold get_current_weather
        rw [if_neg hk]
        simp only [hl, hinv, Bool.false_eq_true, if_false]
        exact fetchCurrent_success st _ now d

/-- Witness for C9: the Paris entry fetched at time 0 is served from cache
at 3540 s (59 min) with no upstream call; at 3660 s (61 min) the upstream
call is made and the entry is replaced with the fresh value stamped 3660. -/
theorem C9_cache_ttl_witness :
    pyTruthy c9St.api_key = true ∧
    cacheLookup c9St.cache (cacheKey "Paris" "current") = some (.current c9W0, 0) ∧
    get_current_weather c9St "Paris" 3540 c9U = (some (.current c9W0), c9St, false) ∧
    (get_current_weather c9St "Paris" 3660 c9U).2.2 = true ∧
    get_current_weather c9St "Paris" 3660 c9U =
      (some (.current (formatCurrent 3660 c9Raw)),
       { c9St with cache :=
           cacheSet c9St.cache (cacheKey "Paris" "current") (.current (formatCurrent 3660 c9Raw), 3660) },
       true) :=
  ⟨rfl, rfl,
   (C9_cache_ttl c9St "Paris" 3540 c9U rfl).1 (.current c9W0) 0 rfl (by decide),
   ((C9_cache_ttl c9St "Paris" 3660 c9U rfl).2
     (Or.inr ⟨.current c9W0, 0, rfl, by decide⟩)).1,
   ((C9_cache_ttl c9St "Paris" 3660 c9U rfl).2
     (Or.inr ⟨.current c9W0, 0, rfl, by decide⟩)).2 c9Raw rfl⟩

/-- C10: with no API key configured, both lookups return `None`
immediately — the cache is not consulted or modified (even when it holds
an unexpired entry for the key) and no upstream call is made. -/
theorem C10_no_key_absent (st : WeatherState) (city : String) (now : Nat)
    (days : Int) (dateOf : Nat → Nat) (setOrderOf : List String → List String)
    (uc : UpstreamResult CurrentRaw) (uf : UpstreamResult ForecastRaw)
    (h : pyTruthy st.api_key = false) :
    get_current_weather st city now uc = (none, st, false) ∧
    get_forecast st city days now dateOf setOrderOf uf = (none, st, false) := by
  constructor
  · unfold get_current_weather
    rw [if_pos h]
  · unfold get_forecast
    rw [if_pos h]

/-- Witness for C10: the key is unset while the cache holds an unexpired
Paris entry and the upstream would succeed; both lookups still return
`None` with the state unchanged and no call made. -/
theorem C10_no_key_absent_witness :
    pyTruthy c10St.api_key = false ∧
    cacheLookup c10St.cache (cacheKey "Paris" "current") = some (.current c9W0, 0) ∧
    is_cache_valid 10 0 = true ∧
    (get_current_weather c10St "Paris" 10 c9U = (none, c10St, false) ∧
     get_forecast c10St "Paris" 3 10 (fun d => d / 86400) id .timeout =
       (none, c10St, false)) :=
  ⟨rfl, rfl, rfl,
   C10_no_key_absent c10St "Paris" 10 3 (fun d => d / 86400) id c9U .timeout rfl⟩
